import Mathlib

/-!
Verification development for the SumatraPDF toolbar icon atlas header
(`src/SvgIcons.h`).  The header declares the enumeration `TbIcon` of
toolbar icon identifiers (with the sentinel `None = -1`) and the builder
`HBITMAP BuildIconsBitmap(int dx, int dy)`.  The builder's implementation
and the icon-source table `gAllIcons` are not part of the provided
source, so they are modelled from the specification; the enumeration is
embedded directly from the header.
-/

set_option maxRecDepth 8192

/-- Toolbar icon identifiers, embedded from the `enum class TbIcon` in
`src/SvgIcons.h`.  The constructor order is exactly the source's
declaration order: the sentinel `None` first, then the 18 icons from
`Open` to `DefaultMode`. -/
inductive TbIcon where
  | None
  | Open
  | Print
  | PagePrev
  | PageNext
  | LayoutContinuous
  | LayoutSinglePage
  | ZoomOut
  | ZoomIn
  | SearchPrev
  | SearchNext
  | MatchCase
  | MatchCase2
  | Save
  | RotateLeft
  | RotateRight
  | DarkMode
  | ReadMode
  | DefaultMode
  deriving DecidableEq, Fintype

/-- Integer value of each enumerator under C++ enumeration semantics:
`None = -1` is explicit in the source, and each following enumerator
takes the previous value plus one, so `Open = 0` through
`DefaultMode = 17`. -/
def TbIcon.toInt : TbIcon → Int
  | .None => -1
  | .Open => 0
  | .Print => 1
  | .PagePrev => 2
  | .PageNext => 3
  | .LayoutContinuous => 4
  | .LayoutSinglePage => 5
  | .ZoomOut => 6
  | .ZoomIn => 7
  | .SearchPrev => 8
  | .SearchNext => 9
  | .MatchCase => 10
  | .MatchCase2 => 11
  | .Save => 12
  | .RotateLeft => 13
  | .RotateRight => 14
  | .DarkMode => 15
  | .ReadMode => 16
  | .DefaultMode => 17

/-- The non-sentinel icon identifiers in source declaration order. -/
def tbIconOrder : List TbIcon :=
  [.Open, .Print, .PagePrev, .PageNext, .LayoutContinuous, .LayoutSinglePage,
   .ZoomOut, .ZoomIn, .SearchPrev, .SearchNext, .MatchCase, .MatchCase2,
   .Save, .RotateLeft, .RotateRight, .DarkMode, .ReadMode, .DefaultMode]

/-- The complete list of `TbIcon` values, sentinel included, in source
declaration order. -/
def TbIcon.all : List TbIcon := .None :: tbIconOrder

/-- Number of non-sentinel icons. -/
def iconCount : Nat := tbIconOrder.length

/-- Modelled from the spec: one entry of the external icon-source table
(`gAllIcons` in the repository, not part of the provided source): an
icon graphical definition together with the icon it depicts. -/
structure SvgIconDef where
  svg : String
  forIcon : TbIcon
  deriving DecidableEq

/-- Modelled from the spec: the external, fixed icon-source table
`gAllIcons` — "one entry per IconId, in matching order".  The actual
SVG data is not in the provided source; each entry here carries a
placeholder graphic tag and the icon it stands for, listed in the order
the table must have. -/
def gAllIcons : List SvgIconDef :=
  [⟨"open", .Open⟩, ⟨"print", .Print⟩, ⟨"pagePrev", .PagePrev⟩,
   ⟨"pageNext", .PageNext⟩, ⟨"layoutContinuous", .LayoutContinuous⟩,
   ⟨"layoutSinglePage", .LayoutSinglePage⟩, ⟨"zoomOut", .ZoomOut⟩,
   ⟨"zoomIn", .ZoomIn⟩, ⟨"searchPrev", .SearchPrev⟩,
   ⟨"searchNext", .SearchNext⟩, ⟨"matchCase", .MatchCase⟩,
   ⟨"matchCase2", .MatchCase2⟩, ⟨"save", .Save⟩,
   ⟨"rotateLeft", .RotateLeft⟩, ⟨"rotateRight", .RotateRight⟩,
   ⟨"darkMode", .DarkMode⟩, ⟨"readMode", .ReadMode⟩,
   ⟨"defaultMode", .DefaultMode⟩]

/-- Modelled from the spec: error taxonomy of the atlas builder —
`InvalidDimension` for a non-positive cell dimension, and
`ResourceExhausted` when the graphics subsystem cannot allocate the
bitmap surface. -/
inductive BuildError where
  | InvalidDimension
  | ResourceExhausted
  deriving DecidableEq

/-- Modelled from the spec: a rendering backend — given an icon, the
cell width and height, and cell-local coordinates, it yields the pixel
value drawn there. -/
def Render : Type := TbIcon → Nat → Nat → Nat → Nat → Nat

/-- Modelled from the spec: pixel content of the atlas at absolute
coordinates: the column `x` falls in cell `x / cw`, which holds the
icon at that index of the declaration order, rendered at cell-local
coordinates `(x % cw, y)`. -/
def atlasPixel (render : Render) (cw ch : Nat) (x y : Nat) : Nat :=
  render (tbIconOrder.getD (x / cw) .None) cw ch (x % cw) y

/-- Modelled from the spec: a bitmap — its dimensions and its pixel
content. -/
structure Bitmap where
  width : Nat
  height : Nat
  pixel : Nat → Nat → Nat

/-- Modelled from the spec: the atlas bitmap of cell size `cw × ch` —
width `cw × iconCount`, height `ch`, each icon rendered into its cell. -/
def mkAtlas (render : Render) (cw ch : Nat) : Bitmap :=
  { width := cw * iconCount, height := ch, pixel := atlasPixel render cw ch }

/-- Modelled from the spec: the atlas builder `BuildIconAtlas`
(realised in the repository by the out-of-source implementation of
`BuildIconsBitmap`).  It fails fast with `InvalidDimension` on a
non-positive cell dimension, asks the graphics subsystem (`alloc`) for
a surface of the atlas dimensions, fails with `ResourceExhausted` when
that allocation is refused, and otherwise returns the atlas with every
icon rendered into its cell. -/
def BuildIconAtlas (alloc : Nat → Nat → Bool) (render : Render)
    (dx dy : Int) : Except BuildError Bitmap :=
  if dx ≤ 0 ∨ dy ≤ 0 then .error .InvalidDimension
  else if alloc (dx.toNat * iconCount) dy.toNat then
    .ok (mkAtlas render dx.toNat dy.toNat)
  else .error .ResourceExhausted

/-- The result type of the declared `HBITMAP BuildIconsBitmap(int, int)`:
a raw bitmap handle, nullable (`none` plays the role of the null
handle), with no separate error channel. -/
def HBITMAP : Type := Option Bitmap

/-- Modelled from the spec: the declared builder
`HBITMAP BuildIconsBitmap(int dx, int dy)` — it takes any two signed
integers and returns only a raw handle, so the error cause of
`BuildIconAtlas` is erased to the null handle. -/
def BuildIconsBitmap (alloc : Nat → Nat → Bool) (render : Render)
    (dx dy : Int) : HBITMAP :=
  (BuildIconAtlas alloc render dx dy).toOption

/-- An always-succeeding graphics allocator, for concrete evaluations. -/
def allocAlways : Nat → Nat → Bool := fun _ _ => true

/-- An always-failing graphics allocator, for concrete evaluations. -/
def allocNever : Nat → Nat → Bool := fun _ _ => false

/-- A concrete deterministic rendering backend, for concrete
evaluations: encodes the icon value and the cell-local coordinates into
the pixel value. -/
def renderTest : Render :=
  fun i _ _ x y => (TbIcon.toInt i + 1).toNat * 1000 + x * 10 + y

/-- Every non-sentinel icon sits in the declaration-order list at the
index given by its enumerator value. -/
theorem tbIcon_getD_toInt (t : TbIcon) (ht : t ≠ .None) :
    (TbIcon.toInt t).toNat < iconCount ∧
      tbIconOrder.getD (TbIcon.toInt t).toNat .None = t := by
  cases t <;> first | exact absurd rfl ht | exact ⟨by decide, by decide⟩

/-- C5: the `TbIcon` enumeration consists of exactly the 18 named
non-sentinel identifiers, in the stated order, plus the sentinel `None`
whose integer value is `-1`. -/
theorem tbIcon_enumeration :
    (∀ t : TbIcon, t ∈ TbIcon.all) ∧ TbIcon.all.Nodup ∧
      tbIconOrder =
        [.Open, .Print, .PagePrev, .PageNext, .LayoutContinuous,
         .LayoutSinglePage, .ZoomOut, .ZoomIn, .SearchPrev, .SearchNext,
         .MatchCase, .MatchCase2, .Save, .RotateLeft, .RotateRight,
         .DarkMode, .ReadMode, .DefaultMode] ∧
      iconCount = 18 ∧ TbIcon.toInt .None = -1 := by
  refine ⟨fun t => ?_, by decide, rfl, rfl, rfl⟩
  cases t <;> decide

/-- C9: the non-sentinel enumerators take the consecutive values
`0`..`17` (`Open = 0`, `DefaultMode = 17`), `None = -1` is the unique
negative value, and the cell-offset computation is well defined: every
non-sentinel icon's enumerator value is a valid index into the
declaration order, addressing its own cell, while `None` addresses
none. -/
theorem tbIcon_values_consecutive :
    tbIconOrder.map TbIcon.toInt = (List.range 18).map Int.ofNat ∧
      (∀ t : TbIcon, TbIcon.toInt t < 0 ↔ t = .None) ∧
      (∀ t : TbIcon, t ≠ .None →
        (TbIcon.toInt t).toNat < iconCount ∧
          tbIconOrder.getD (TbIcon.toInt t).toNat .None = t) := by
  refine ⟨by decide, fun t => ?_, fun t ht => tbIcon_getD_toInt t ht⟩
  cases t <;> decide

/-- C9 witness: instantiated at the icon `Save`. -/
theorem tbIcon_values_consecutive_witness :
    (TbIcon.toInt .Save).toNat < iconCount ∧
      tbIconOrder.getD (TbIcon.toInt .Save).toNat .None = .Save :=
  tbIcon_values_consecutive.2.2 .Save (by decide)

/-- C6: the external icon-source table has exactly one entry per
non-sentinel icon, at the same position — same length as the
declaration order and positional correspondence at every index, with no
entries beyond those. -/
theorem gAllIcons_matches_order :
    gAllIcons.length = iconCount ∧
      ∀ i : Nat, i < iconCount →
        (gAllIcons.getD i ⟨"", .None⟩).forIcon = tbIconOrder.getD i .None := by
  refine ⟨rfl, ?_⟩
  decide

/-- C6 witness: instantiated at index 12 (the `Save` entry). -/
theorem gAllIcons_matches_order_witness :
    (gAllIcons.getD 12 ⟨"", .None⟩).forIcon = tbIconOrder.getD 12 .None :=
  gAllIcons_matches_order.2 12 (by decide)

/-- C1: for positive cell dimensions, any atlas bitmap the builder
returns has width exactly `cellWidth × iconCount` and height exactly
`cellHeight`. -/
theorem buildIconAtlas_dimensions (alloc : Nat → Nat → Bool)
    (render : Render) (dx dy : Int) (hx : 0 < dx) (hy : 0 < dy)
    (b : Bitmap) (hb : BuildIconAtlas alloc render dx dy = .ok b) :
    b.width = dx.toNat * iconCount ∧ b.height = dy.toNat := by
  unfold BuildIconAtlas at hb
  rw [if_neg (by omega)] at hb
  by_cases ha : alloc (dx.toNat * iconCount) dy.toNat = true
  · rw [if_pos ha] at hb
    cases hb
    exact ⟨rfl, rfl⟩
  · rw [if_neg ha] at hb
    cases hb

/-- C1 witness: at cell size 24 × 24 with an always-succeeding
allocator, the returned atlas measures 432 × 24. -/
theorem buildIconAtlas_dimensions_witness :
    (mkAtlas renderTest 24 24).width = (24 : Int).toNat * iconCount ∧
      (mkAtlas renderTest 24 24).height = (24 : Int).toNat :=
  buildIconAtlas_dimensions allocAlways renderTest 24 24 (by decide)
    (by decide) (mkAtlas renderTest 24 24) rfl

/-- C2: for positive cell dimensions and any non-sentinel icon, every
pixel of the atlas cell at horizontal offset
`enumerator value × cellWidth` is the corresponding pixel of that very
icon rendered at the cell size. -/
theorem buildIconAtlas_cell_renders_icon (alloc : Nat → Nat → Bool)
    (render : Render) (dx dy : Int) (hx : 0 < dx) (hy : 0 < dy)
    (b : Bitmap) (hb : BuildIconAtlas alloc render dx dy = .ok b)
    (t : TbIcon) (ht : t ≠ .None) (x y : Nat)
    (hxc : x < dx.toNat) (hyc : y < dy.toNat) :
    b.pixel ((TbIcon.toInt t).toNat * dx.toNat + x) y =
      render t dx.toNat dy.toNat x y := by
  have hcw : 0 < dx.toNat := by omega
  unfold BuildIconAtlas at hb
  rw [if_neg (by omega)] at hb
  by_cases ha : alloc (dx.toNat * iconCount) dy.toNat = true
  · rw [if_pos ha] at hb
    cases hb
    show atlasPixel render dx.toNat dy.toNat _ y = _
    unfold atlasPixel
    have hdiv : ((TbIcon.toInt t).toNat * dx.toNat + x) / dx.toNat =
        (TbIcon.toInt t).toNat := by
      rw [Nat.mul_comm, Nat.mul_add_div hcw, Nat.div_eq_of_lt hxc,
        Nat.add_zero]
    have hmod : ((TbIcon.toInt t).toNat * dx.toNat + x) % dx.toNat = x := by
      rw [Nat.mul_comm, Nat.mul_add_mod, Nat.mod_eq_of_lt hxc]
    rw [hdiv, hmod, (tbIcon_getD_toInt t ht).2]
  · rw [if_neg ha] at hb
    cases hb

/-- C2 witness: at cell size 24 × 24, pixel (3, 5) of the cell of
`PagePrev` (enumerator value 2, horizontal offset 48) equals the
renderer's pixel (3, 5) of `PagePrev`. -/
theorem buildIconAtlas_cell_renders_icon_witness :
    (mkAtlas renderTest 24 24).pixel
        ((TbIcon.toInt .PagePrev).toNat * (24 : Int).toNat + 3) 5 =
      renderTest .PagePrev (24 : Int).toNat (24 : Int).toNat 3 5 :=
  buildIconAtlas_cell_renders_icon allocAlways renderTest 24 24 (by decide)
    (by decide) (mkAtlas renderTest 24 24) rfl .PagePrev (by decide) 3 5
    (by decide) (by decide)

/-- C3: for any non-positive cell dimension the builder fails with
`InvalidDimension` — for every allocator, so the graphics subsystem is
never consulted and no resource is allocated — and the declared
handle-returning interface produces the null handle; in particular at
`(0, 24)`. -/
theorem buildIconAtlas_invalid_dimension (alloc : Nat → Nat → Bool)
    (render : Render) (dx dy : Int) (h : dx ≤ 0 ∨ dy ≤ 0) :
    BuildIconAtlas alloc render dx dy = .error .InvalidDimension ∧
      BuildIconsBitmap alloc render dx dy = none := by
  have he : BuildIconAtlas alloc render dx dy = .error .InvalidDimension := by
    unfold BuildIconAtlas
    rw [if_pos h]
  exact ⟨he, by rw [BuildIconsBitmap, he]; rfl⟩

/-- C3 witness: `BuildIconAtlas(0, 24)` fails with `InvalidDimension`
and yields the null handle. -/
theorem buildIconAtlas_invalid_dimension_witness :
    BuildIconAtlas allocAlways renderTest 0 24 = .error .InvalidDimension ∧
      BuildIconsBitmap allocAlways renderTest 0 24 = none :=
  buildIconAtlas_invalid_dimension allocAlways renderTest 0 24
    (Or.inl (by decide))

/-- C4: at cell size 24 × 24 (allocation granted), the builder returns
the atlas of size 432 × 24; every pixel of the sub-rectangle
`[0,0]-[24,24]` is the corresponding pixel of the first icon `Open`,
and every pixel of the sub-rectangle `[408,0]-[432,24]` is the
corresponding pixel of the last icon `DefaultMode`. -/
theorem buildIconAtlas_scenario_24 (alloc : Nat → Nat → Bool)
    (render : Render) (ha : alloc 432 24 = true) :
    BuildIconAtlas alloc render 24 24 = .ok (mkAtlas render 24 24) ∧
      (mkAtlas render 24 24).width = 432 ∧
      (mkAtlas render 24 24).height = 24 ∧
      (∀ x y : Nat, x < 24 → y < 24 →
        (mkAtlas render 24 24).pixel x y = render .Open 24 24 x y) ∧
      (∀ x y : Nat, x < 24 → y < 24 →
        (mkAtlas render 24 24).pixel (408 + x) y =
          render .DefaultMode 24 24 x y) := by
  refine ⟨?_, rfl, rfl, ?_, ?_⟩
  · unfold BuildIconAtlas
    rw [if_neg (by decide),
      if_pos (show alloc ((24 : Int).toNat * iconCount) (24 : Int).toNat =
        true from ha)]
    rfl
  · intro x y hx hy
    show atlasPixel render 24 24 x y = _
    unfold atlasPixel
    rw [Nat.div_eq_of_lt hx, Nat.mod_eq_of_lt hx]
    rfl
  · intro x y hx hy
    show atlasPixel render 24 24 (408 + x) y = _
    unfold atlasPixel
    have h1 : (408 + x) / 24 = 17 := by omega
    have h2 : (408 + x) % 24 = x := by omega
    rw [h1, h2]
    rfl

/-- C4 witness: instantiated with the concrete allocator and renderer,
at the pixel (7, 11) of both the first and the last cell. -/
theorem buildIconAtlas_scenario_24_witness :
    BuildIconAtlas allocAlways renderTest 24 24 =
        .ok (mkAtlas renderTest 24 24) ∧
      (mkAtlas renderTest 24 24).pixel 7 11 =
        renderTest .Open 24 24 7 11 ∧
      (mkAtlas renderTest 24 24).pixel (408 + 7) 11 =
        renderTest .DefaultMode 24 24 7 11 :=
  have h := buildIconAtlas_scenario_24 allocAlways renderTest rfl
  ⟨h.1, h.2.2.2.1 7 11 (by decide) (by decide),
    h.2.2.2.2 7 11 (by decide) (by decide)⟩

/-- C7: the builder is deterministic — two invocations with identical
inputs yield bitmaps of identical dimensions and identical per-pixel
content (the model is a pure function of its inputs, so no state is
shared between calls). -/
theorem buildIconAtlas_deterministic (alloc : Nat → Nat → Bool)
    (render : Render) (dx dy : Int) (b1 b2 : Bitmap)
    (h1 : BuildIconAtlas alloc render dx dy = .ok b1)
    (h2 : BuildIconAtlas alloc render dx dy = .ok b2) :
    b1.width = b2.width ∧ b1.height = b2.height ∧
      ∀ x y : Nat, b1.pixel x y = b2.pixel x y := by
  have h : b1 = b2 := by
    have h12 := h1.symm.trans h2
    exact Except.ok.inj h12
  subst h
  exact ⟨rfl, rfl, fun _ _ => rfl⟩

/-- C7 witness: two invocations at cell size 24 × 24 with the concrete
allocator and renderer agree at pixel (100, 3). -/
theorem buildIconAtlas_deterministic_witness :
    (mkAtlas renderTest 24 24).pixel 100 3 =
      (mkAtlas renderTest 24 24).pixel 100 3 :=
  (buildIconAtlas_deterministic allocAlways renderTest 24 24
    (mkAtlas renderTest 24 24) (mkAtlas renderTest 24 24) rfl rfl).2.2 100 3

/-- C8: the builder has exactly three outcomes — success, or
`InvalidDimension` exactly when a cell dimension is non-positive, or
`ResourceExhausted` exactly when the graphics subsystem refuses the
allocation; the result is returned directly to the caller and no other
failure mode exists. -/
theorem buildIconAtlas_error_taxonomy (alloc : Nat → Nat → Bool)
    (render : Render) (dx dy : Int) :
    BuildIconAtlas alloc render dx dy =
        .ok (mkAtlas render dx.toNat dy.toNat) ∨
      (BuildIconAtlas alloc render dx dy = .error .InvalidDimension ∧
        (dx ≤ 0 ∨ dy ≤ 0)) ∨
      (BuildIconAtlas alloc render dx dy = .error .ResourceExhausted ∧
        0 < dx ∧ 0 < dy ∧
        alloc (dx.toNat * iconCount) dy.toNat = false) := by
  unfold BuildIconAtlas
  by_cases h : dx ≤ 0 ∨ dy ≤ 0
  · exact Or.inr (Or.inl ⟨by rw [if_pos h], h⟩)
  · rw [if_neg h]
    push_neg at h
    by_cases ha : alloc (dx.toNat * iconCount) dy.toNat = true
    · exact Or.inl (by rw [if_pos ha])
    · refine Or.inr (Or.inr ⟨by rw [if_neg ha], h.1, h.2, ?_⟩)
      simp only [Bool.not_eq_true] at ha
      exact ha

/-- C10: the declared interface accepts any signed integers and signals
every failure only through the returned handle: the handle is null
exactly when the underlying construction fails, a successful
construction hands back its bitmap, and in particular the calls at
`(0, 24)`, at `(-5, -7)`, and under an exhausted graphics subsystem all
return the same null handle, with the error cause erased. -/
theorem buildIconsBitmap_interface (alloc : Nat → Nat → Bool)
    (render : Render) :
    (∀ dx dy : Int, BuildIconsBitmap alloc render dx dy = none ↔
        ∃ e : BuildError, BuildIconAtlas alloc render dx dy = .error e) ∧
      (∀ dx dy : Int, ∀ b : Bitmap,
        BuildIconAtlas alloc render dx dy = .ok b →
          BuildIconsBitmap alloc render dx dy = some b) ∧
      BuildIconsBitmap alloc render 0 24 = none ∧
      BuildIconsBitmap alloc render (-5) (-7) = none ∧
      BuildIconsBitmap allocNever render 24 24 = none := by
  refine ⟨fun dx dy => ?_, fun dx dy b hb => ?_, ?_, ?_, ?_⟩
  · unfold BuildIconsBitmap
    cases hr : BuildIconAtlas alloc render dx dy with
    | error e =>
       simp only [Except.toOption]
       exact ⟨fun _ => ⟨e, rfl⟩, fun _ => trivial⟩
    | ok b =>
       simp only [Except.toOption]
       constructor
       · intro h
         exact Option.noConfusion h
       · rintro ⟨e, he⟩
         exact Except.noConfusion he
  · unfold BuildIconsBitmap
    rw [hb]
    rfl
  · unfold BuildIconsBitmap BuildIconAtlas
    rw [if_pos (Or.inl (by decide))]
    rfl
  · unfold BuildIconsBitmap BuildIconAtlas
    rw [if_pos (Or.inl (by decide))]
    rfl
  · unfold BuildIconsBitmap BuildIconAtlas
    rw [if_neg (by decide)]
    rfl

/-- C5 witness: the icon `Save` belongs to the complete enumeration. -/
theorem tbIcon_enumeration_witness : TbIcon.Save ∈ TbIcon.all :=
  tbIcon_enumeration.1 .Save

/-- C8 witness: instantiated at cell size 24 × 24 under an exhausted
graphics subsystem. -/
theorem buildIconAtlas_error_taxonomy_witness :
    BuildIconAtlas allocNever renderTest 24 24 =
        .ok (mkAtlas renderTest (24 : Int).toNat (24 : Int).toNat) ∨
      (BuildIconAtlas allocNever renderTest 24 24 =
          .error .InvalidDimension ∧ ((24 : Int) ≤ 0 ∨ (24 : Int) ≤ 0)) ∨
      (BuildIconAtlas allocNever renderTest 24 24 =
          .error .ResourceExhausted ∧ 0 < (24 : Int) ∧ 0 < (24 : Int) ∧
        allocNever ((24 : Int).toNat * iconCount) (24 : Int).toNat = false) :=
  buildIconAtlas_error_taxonomy allocNever renderTest 24 24

/-- C10 witness: the call at `(0, 24)` returns the null handle. -/
theorem buildIconsBitmap_interface_witness :
    BuildIconsBitmap allocAlways renderTest 0 24 = none :=
  (buildIconsBitmap_interface allocAlways renderTest).2.2.1
